import Mathlib

/-!
Verification of the MethodCache CI reporting scripts
(`update-readme-performance.py` and `generate-charts.py`) against their
natural-language specification.  The Python code is shallowly embedded:
dictionaries become structures, IEEE doubles become rationals, file
contents become `List Char`, and raised exceptions become `Option`
results (`none` models an uncaught exception or an error return).
-/

/-- Embeds one entry of a dataset's `benchmarks` array.  The scripts only
ever read `parameters.get('DataSize')`, `parameters.get('ModelType')`,
`method`, and `statistics.mean`, so the parameter mapping is restricted
to those two keys (`none` models an absent key) and `statistics` to its
`mean` field (a rational in place of the JSON double, in nanoseconds). -/
structure BenchmarkRecord where
  method : String
  dataSize : Option Int
  modelType : Option String
  mean : ℚ
  deriving DecidableEq, Repr

/-- Embeds the `metadata` object.  The scripts parse
`metadata.timestamp` with `datetime.fromisoformat`; the embedding keeps
the already-parsed instant as a rational number of seconds. -/
structure Metadata where
  version : String
  timestamp : ℚ
  deriving DecidableEq, Repr

/-- One `benchmark-*.json` document, already parsed. -/
structure BenchmarkDataset where
  metadata : Metadata
  benchmarks : List BenchmarkRecord
  deriving DecidableEq, Repr

/-! ## README updater: section replacement
Embedding of `update_readme_performance` (update-readme-performance.py,
lines 187-228).  The regex
`(## ⚡ Performance|## Performance).*?(?=\n## |\n# |\Z)` with `re.DOTALL`
is embedded directly: `headingAt` is the alternation at the current
position, `lazyLen` is the lazy `.*?` scan up to the lookahead, and
`reSubAll` is `re.sub` without a count, which replaces every
non-overlapping occurrence left to right. -/

/-- First alternative of the heading alternation. -/
def perfHeading1 : List Char := "## ⚡ Performance".toList

/-- Second alternative of the heading alternation. -/
def perfHeading2 : List Char := "## Performance".toList

/-- Length of the heading matched at the start of `s`, if any; the left
alternative is tried first, as in the regex. -/
def headingAt (s : List Char) : Option Nat :=
  if perfHeading1.isPrefixOf s then some perfHeading1.length
  else if perfHeading2.isPrefixOf s then some perfHeading2.length
  else none

/-- The lookahead `(?=\n## |\n# |\Z)`: true when the remaining text
starts with a same-or-higher-level heading separator or is the end of
the document. -/
def lookaheadStop (s : List Char) : Bool :=
  s.isEmpty || "\n## ".toList.isPrefixOf s || "\n# ".toList.isPrefixOf s

/-- Number of characters the lazy `.*?` consumes before the lookahead
first holds (under `re.DOTALL` the dot also matches newlines). -/
def lazyLen : List Char → Nat
  | [] => 0
  | c :: t => if lookaheadStop (c :: t) then 0 else lazyLen t + 1

/-- Fuelled worker for `reSubAll`; each recursive step consumes at least
one character, so fuel equal to the input length always suffices. -/
def reSubAllAux (repl : List Char) : Nat → List Char → List Char
  | _, [] => []
  | 0, s => s
  | fuel + 1, c :: t =>
    match headingAt (c :: t) with
    | some h =>
      repl ++ reSubAllAux repl fuel ((c :: t).drop (h + lazyLen ((c :: t).drop h)))
    | none => c :: reSubAllAux repl fuel t

/-- `re.sub(pattern, repl, content, flags=re.DOTALL)`: every
non-overlapping occurrence of the section pattern is replaced, scanning
left to right.  The generated section contains no backslash, so the
replacement is inserted literally. -/
def reSubAll (repl s : List Char) : List Char :=
  reSubAllAux repl s.length s

/-- `re.search(pattern, content, re.DOTALL)` as a Boolean: the lazy part
and the lookahead always succeed once a heading matches, so a match
exists exactly when the heading alternation matches at some position. -/
def containsHeadingB : List Char → Bool
  | [] => false
  | c :: t => (headingAt (c :: t)).isSome || containsHeadingB t

/-- Splits `s` around the first occurrence of the literal pattern `pat`,
returning the text before and after it (the `re.search` used for the
fallback anchors is on a literal pattern). -/
def splitFirst (pat : List Char) : List Char → Option (List Char × List Char)
  | [] => if pat.isEmpty then some ([], []) else none
  | c :: t =>
    if pat.isPrefixOf (c :: t) then some ([], (c :: t).drop pat.length)
    else
      match splitFirst pat t with
      | some (pre, post) => some (c :: pre, post)
      | none => none

/-- The fallback anchor headings, in the fixed priority order of
`insertion_patterns` (lines 203-209); each is searched as
`\n(## …)`. -/
def anchorHeadings : List (List Char) :=
  ["## Contributing".toList, "## License".toList,
   "## Support".toList, "## Documentation".toList]

/-- The anchor loop of lines 211-216.  When an anchor `a` is found after
a newline, the match `\n a` is replaced once by `\n{section}\n\n\1`.
When no anchor matches, the final pattern `r'\Z'` matches, but its
replacement still references group 1, which `\Z` does not have; Python's
`re.sub` then raises `re.error: invalid group reference`, embedded here
as `none`.  The `if not inserted` fallback of lines 218-219 is dead
code, since the `\Z` pattern always matches. -/
def insertLoop (repl : List Char) : List (List Char) → List Char → Option (List Char)
  | [], _ => none
  | a :: rest, content =>
    match splitFirst ('\n' :: a) content with
    | some (pre, post) => some (pre ++ '\n' :: (repl ++ '\n' :: '\n' :: (a ++ post)))
    | none => insertLoop repl rest content

/-- The no-existing-section branch of `update_readme_performance`. -/
def insertSection (content repl : List Char) : Option (List Char) :=
  insertLoop repl anchorHeadings content

/-- The content transformation of `update_readme_performance`
(lines 193-219): replace every occurrence of the section pattern when
one exists, otherwise insert before a fallback anchor; `none` models the
uncaught `re.error` raised on the `\Z` fallback. -/
def update_readme_content (content repl : List Char) : Option (List Char) :=
  if containsHeadingB content then some (reSubAll repl content)
  else insertSection content repl

/-! ## Badges, speedup, and table cells
Embeddings of `generate_performance_badges` (lines 39-88),
the speedup computation in `generate_performance_section`
(lines 146-162), `generate_performance_table` (lines 91-138), and
`generate_performance_summary` (generate-charts.py, lines 213-258). -/

/-- The canonical parameter combination `BENCHMARK_PARAMETERS`:
`DataSize = 1`, `ModelType = 'Small'` (lines 16-21). -/
def paramMatches (b : BenchmarkRecord) : Bool :=
  b.dataSize == some 1 && b.modelType == some "Small"

/-- The badge/speedup scan (lines 47-54 and 150-157): one pass over
`benchmarks` that overwrites the variable on every record matching
`(method, DataSize = 1, ModelType = 'Small')`, so the last matching
record's mean wins and `none` means no record matched. -/
def last_param_match (data : BenchmarkDataset) (method : String) : Option ℚ :=
  data.benchmarks.foldl
    (fun acc b => if paramMatches b && b.method == method then some b.mean else acc)
    none

/-- Badge colour for the cache-hit badge (lines 57-66): a pure function
of the mean with thresholds at 1000 ns and 10000 ns. -/
def cache_hit_badge_color (mean : ℚ) : String :=
  if mean < 1000 then "brightgreen"
  else if mean < 10000 then "green"
  else "yellow"

/-- Badge colour for the cache-miss badge (lines 71-80): thresholds at
1 ms (1000000 ns) and 10 ms (10000000 ns). -/
def cache_miss_badge_color (mean : ℚ) : String :=
  if mean < 1000000 then "green"
  else if mean < 10000000 then "yellow"
  else "orange"

/-- The speedup computation of lines 159-162.  Python's
`if cache_hit_time and no_cache_time and cache_hit_time > 0` tests
truthiness: `None` and `0.0` are falsy, and only then is
`cache_hit_time > 0` checked.  `some` models the speedup line being
included in the generated section, `none` its omission. -/
def cache_speedup (data : BenchmarkDataset) : Option ℚ :=
  match last_param_match data "CacheHit", last_param_match data "NoCaching" with
  | some ch, some nc =>
    if ch ≠ 0 ∧ nc ≠ 0 ∧ 0 < ch then some (nc / ch) else none
  | _, _ => none

/-- Decimal digit character. -/
def digitChar (n : Nat) : Char := Char.ofNat (48 + n)

/-- Fuelled decimal printer for naturals (fuel bounds the number of
digits; `n + 1` is always enough fuel for `n`). -/
def natCharsFuel : Nat → Nat → List Char
  | 0, _ => []
  | fuel + 1, n =>
    if n < 10 then [digitChar n]
    else natCharsFuel fuel (n / 10) ++ [digitChar (n % 10)]

/-- Decimal digits of a natural number. -/
def natChars (n : Nat) : List Char := natCharsFuel (n + 1) n

/-- Decimal digits of an integer, with a leading minus sign when
negative. -/
def intChars (i : Int) : List Char :=
  if i < 0 then '-' :: natChars i.natAbs else natChars i.natAbs

/-- Python's float-to-nearest rounding (round half to even), on the
embedded rationals. -/
def pyRound (q : ℚ) : Int :=
  let f := ⌊q⌋
  let r := q - f
  if r < 1 / 2 then f
  else if 1 / 2 < r then f + 1
  else if f % 2 = 0 then f else f + 1

/-- Python's `f"{q:.0f}"` on the embedded rationals. -/
def fmt0 (q : ℚ) : List Char := intChars (pyRound q)

/-- Python's `f"{q:.1f}"` on the embedded rationals: one digit after the
decimal point. -/
def fmt1 (q : ℚ) : List Char :=
  let n := pyRound (q * 10)
  intChars (n / 10) ++ '.' :: natChars (n % 10).natAbs

/-- Cell formatting of `generate_performance_table` (lines 126-132):
bold value with a unit chosen at 1000 ns and 1000000 ns. -/
def format_table_mean (m : ℚ) : List Char :=
  if m < 1000 then '*' :: '*' :: (fmt0 m ++ " ns**".toList)
  else if m < 1000000 then '*' :: '*' :: (fmt1 (m / 1000) ++ " μs**".toList)
  else '*' :: '*' :: (fmt1 (m / 1000000) ++ " ms**".toList)

/-- Cell formatting of `generate_performance_summary`
(generate-charts.py, lines 245-252; the `Î¼s` unit reproduces the
mojibake present in the source file). -/
def format_summary_mean (m : ℚ) : List Char :=
  if m < 1000 then fmt1 m ++ " ns".toList
  else if m < 1000000 then fmt1 (m / 1000) ++ " Î¼s".toList
  else fmt1 (m / 1000000) ++ " ms".toList

/-- The per-method benchmark group built by the `methods` dictionary
(lines 93-99): all records with the given method, in dataset order. -/
def method_group (data : BenchmarkDataset) (method : String) : List BenchmarkRecord :=
  data.benchmarks.filter (fun b => b.method == method)

/-- The inner search of lines 118-123: first record of the group with
`DataSize = 1` and the given `ModelType`. -/
def find_cell (data : BenchmarkDataset) (method mt : String) : Option BenchmarkRecord :=
  (method_group data method).find?
    (fun b => b.dataSize == some 1 && b.modelType == some mt)

/-- One cell of the README comparison table (lines 116-134): the
formatted mean of the first matching record when it is positive,
otherwise `N/A`. -/
def table_cell (data : BenchmarkDataset) (method mt : String) : List Char :=
  match find_cell data method mt with
  | some b => if 0 < b.mean then format_table_mean b.mean else "N/A".toList
  | none => "N/A".toList

/-- One cell of the dashboard summary table (generate-charts.py,
lines 236-254): identical lookup, different formatting. -/
def summary_cell (data : BenchmarkDataset) (method mt : String) : List Char :=
  match find_cell data method mt with
  | some b => if 0 < b.mean then format_summary_mean b.mean else "N/A".toList
  | none => "N/A".toList

/-! ## Chart generator: loading, extraction, coordinates
Embeddings from generate-charts.py.  A directory listing is a list of
`(filename, parse result)` pairs: `none` models a file that raises on
open or parse. -/

/-- A globbed file together with the outcome of opening and parsing it
(`none`: `IOError` or `json.JSONDecodeError`). -/
abbrev FileEntry := String × Option BenchmarkDataset

/-- Python's lexicographic string order on code points, used by
`sorted(glob.glob(...))`. -/
def lexLt : List Char → List Char → Bool
  | [], [] => false
  | [], _ :: _ => true
  | _ :: _, [] => false
  | a :: s, b :: t => if a < b then true else if b < a then false else lexLt s t

/-- One step of descending insertion: `x` is placed before the first
entry with a strictly smaller filename. -/
def insertFileDesc (x : FileEntry) : List FileEntry → List FileEntry
  | [] => [x]
  | y :: t => if lexLt y.1.data x.1.data then x :: y :: t else y :: insertFileDesc x t

/-- `sorted(glob.glob('benchmark-*.json'), reverse=True)`: filenames in
descending lexicographic order (glob never repeats a name, so stability
is moot). -/
def sortFilesDesc : List FileEntry → List FileEntry
  | [] => []
  | x :: t => insertFileDesc x (sortFilesDesc t)

/-- The file selection of `load_performance_data` (lines 18-21): sort
descending, then keep the first `limit` files when `limit > 0`. -/
def selectFiles (files : List FileEntry) (limit : Int) : List FileEntry :=
  if 0 < limit then (sortFilesDesc files).take limit.toNat else sortFilesDesc files

/-- `load_performance_data` (generate-charts.py, lines 16-31): each
selected file is parsed, a file that raises is skipped (with a printed
warning), and the surviving datasets are reversed to oldest-first
order. -/
def load_performance_data (files : List FileEntry) (limit : Int) : List BenchmarkDataset :=
  ((selectFiles files limit).filterMap (·.2)).reverse

/-- `load_latest_performance_data` (update-readme-performance.py,
lines 24-36): only the first file of the descending sort is opened;
`none` when the listing is empty or when that single file fails to load
(the `except` branch returns `None` without trying the remaining
files). -/
def load_latest_performance_data (files : List FileEntry) : Option BenchmarkDataset :=
  match sortFilesDesc files with
  | [] => none
  | f :: _ => f.2

/-- One point of a rendered chart (the `date` string derived by
`strftime` is only used for axis labels and is omitted). -/
structure ChartPoint where
  timestamp : ℚ
  mean : ℚ
  version : String
  deriving DecidableEq, Repr

/-- The record filter of `create_svg_chart` (lines 41-43):
`(method, DataSize = 1, ModelType = 'Small')`. -/
def record_matches (method : String) (b : BenchmarkRecord) : Bool :=
  b.method == method && b.dataSize == some 1 && b.modelType == some "Small"

/-- The per-dataset extraction of lines 39-56: the inner loop `break`s
on the first matching record, contributing one point when its mean is
positive and nothing otherwise — even when a later matching record of
the same dataset has a positive mean. -/
def entry_points (method : String) (e : BenchmarkDataset) : List ChartPoint :=
  match e.benchmarks.find? (record_matches method) with
  | some b =>
    if 0 < b.mean then [⟨e.metadata.timestamp, b.mean, e.metadata.version⟩] else []
  | none => []

/-- The full point extraction of `create_svg_chart` (and of its
never-called twin `create_svg_chart_refactored`, lines 436-454): one
pass over the datasets in list order. -/
def extract_points (method : String) : List BenchmarkDataset → List ChartPoint
  | [] => []
  | e :: rest => entry_points method e ++ extract_points method rest

/-- `min(p['timestamp'] for p in points)` (0 on an empty list, which the
scripts never query). -/
def minTime : List ChartPoint → ℚ
  | [] => 0
  | p :: t => t.foldl (fun a q => min a q.timestamp) p.timestamp

/-- `max(p['timestamp'] for p in points)`. -/
def maxTime : List ChartPoint → ℚ
  | [] => 0
  | p :: t => t.foldl (fun a q => max a q.timestamp) p.timestamp

/-- `min(p['mean'] for p in points)`. -/
def minMean : List ChartPoint → ℚ
  | [] => 0
  | p :: t => t.foldl (fun a q => min a q.mean) p.mean

/-- `max(p['mean'] for p in points)`. -/
def maxMean : List ChartPoint → ℚ
  | [] => 0
  | p :: t => t.foldl (fun a q => max a q.mean) p.mean

/-- The degenerate-range fallback of line 72:
`max_mean - min_mean if max_mean != min_mean else max_mean * 0.1`. -/
def meanRangeOf (pts : List ChartPoint) : ℚ :=
  if maxMean pts ≠ minMean pts then maxMean pts - minMean pts
  else maxMean pts * (1 / 10)

/-- The vertex coordinates of lines 144-157 with `margin = 60`:
`time_progress` guards a zero time range by substituting 0 (placing the
point at the left margin), `mean_progress` guards a zero mean range by
substituting 0.5. -/
def svg_coords (pts : List ChartPoint) (width height : ℚ) : List (ℚ × ℚ) :=
  let range := maxTime pts - minTime pts
  pts.map (fun p =>
    (60 + (width - 2 * 60) *
      (if 0 < range then (p.timestamp - minTime pts) / range else 0),
     60 + (height - 2 * 60) *
      (if 0 < meanRangeOf pts then (maxMean pts - p.mean) / meanRangeOf pts else 1 / 2)))

/-- `create_svg_chart` (lines 34-210), reduced to the geometry the
claims are about: `none` models the placeholder comment returned for
fewer than two points, and the returned list holds the polyline's
vertices in order (the `M`/`L` path commands of lines 144-156; the
circle markers share the same coordinates). -/
def create_svg_chart (data : List BenchmarkDataset) (method : String)
    (width height : ℚ) : Option (List (ℚ × ℚ)) :=
  let pts := extract_points method data
  if pts.length < 2 then none
  else some (svg_coords pts width height)

/-- `_plot_data_points` (lines 373-400), the helper of
`create_svg_chart_refactored`: it computes
`(time_offset / time_range) * chart_width` with no guard, so a zero time
range (or a zero mean range) raises `ZeroDivisionError` as soon as one
point exists — embedded as `none`.  An empty point list runs no loop
iteration and divides by nothing. -/
def plot_data_points (pts : List ChartPoint) (width height : ℚ) : Option (List (ℚ × ℚ)) :=
  if pts.isEmpty then some []
  else if maxTime pts - minTime pts = 0 then none
  else if meanRangeOf pts = 0 then none
  else some (pts.map (fun p =>
    (60 + (p.timestamp - minTime pts) / (maxTime pts - minTime pts) * (width - 2 * 60),
     height - 60 - (p.mean - minMean pts) / meanRangeOf pts * (height - 2 * 60))))

/-! ## Entry points and exit codes
The two `main` functions.  Output written to disk is summarised by a
Boolean `writeOk` (`false`: the write raises `IOError`); the README's
current content is an `Option (List Char)` (`none`: reading raises
`IOError`); the generated section's bytes never influence control flow
and are passed as a parameter. -/

/-- `update_readme_performance` (lines 187-228) as an outcome:
`some true` on success, `some false` when an `IOError` is caught while
reading or writing, `none` when the uncaught `re.error` of the `\Z`
fallback propagates. -/
def update_readme_performance (content : Option (List Char)) (sect : List Char)
    (writeOk : Bool) : Option Bool :=
  match content with
  | none => some false
  | some c =>
    match update_readme_content c sect with
    | none => none
    | some _ => some writeOk

/-- Process exit status of `main` in update-readme-performance.py
(lines 231-268): 1 when no data loads, 0 on a dry run, then 0/1 from the
update outcome; an uncaught exception makes the interpreter exit with
status 1. -/
def update_readme_main (files : List FileEntry) (dryRun : Bool)
    (content : Option (List Char)) (sect : List Char) (writeOk : Bool) : Nat :=
  match load_latest_performance_data files with
  | none => 1
  | some _ =>
    if dryRun then 0
    else
      match update_readme_performance content sect writeOk with
      | none => 1
      | some true => 0
      | some false => 1

/-- Process exit status of `main` in generate-charts.py (lines 261-330):
on no data it prints and executes a bare `return`, so `exit(main())`
becomes `exit(None)` — status 0; otherwise the charts and dashboard are
written, and an uncaught `IOError` exits with status 1. -/
def generate_charts_main (files : List FileEntry) (limit : Int) (writeOk : Bool) : Nat :=
  match load_performance_data files limit with
  | [] => 0
  | _ :: _ => if writeOk then 0 else 1

/-! ## Auxiliary predicates and concrete data
`noMatchAll` and `noMatchPre` are decidable side conditions used to
state where the section pattern does and does not match inside a
document; the remaining definitions are concrete datasets used to
instantiate the theorems. -/

/-- No position of `s` starts a match of the section-heading
alternation. -/
def noMatchAll : List Char → Bool
  | [] => true
  | c :: t => (headingAt (c :: t)).isNone && noMatchAll t

/-- No position inside the prefix `pre` starts a match of the
section-heading alternation in the document `pre ++ rest` (a match may
inspect characters of `rest` across the boundary). -/
def noMatchPre : List Char → List Char → Bool
  | [], _ => true
  | c :: t, rest => (headingAt (c :: t ++ rest)).isNone && noMatchPre t rest

/-- A benchmark record for the canonical combination
`(CacheHit, DataSize = 1, ModelType = 'Small')` with the given mean. -/
def hitRecord (m : ℚ) : BenchmarkRecord :=
  ⟨"CacheHit", some 1, some "Small", m⟩

/-- A one-record dataset for the canonical cache-hit combination. -/
def hitDataset (v : String) (t m : ℚ) : BenchmarkDataset :=
  ⟨⟨v, t⟩, [hitRecord m]⟩

/-- An empty, well-formed dataset. -/
def emptyDataset : BenchmarkDataset := ⟨⟨"1.0.0", 0⟩, []⟩

/-- Two globbed files whose lexicographically greater one is malformed
while the other parses. -/
def mixedFiles : List FileEntry :=
  [("benchmark-1.json", some emptyDataset), ("benchmark-2.json", none)]

/-- A dataset holding both canonical methods with positive means. -/
def speedupDataset : BenchmarkDataset :=
  ⟨⟨"1.0.0", 0⟩, [hitRecord 100, ⟨"NoCaching", some 1, some "Small", 1000⟩]⟩

/-- A dataset with a positive cache-hit mean and a zero cache-miss
mean. -/
def tableDataset : BenchmarkDataset :=
  ⟨⟨"1.0.0", 0⟩,
   [⟨"CacheHit", some 1, some "Small", 500⟩, ⟨"CacheMiss", some 1, some "Small", 0⟩]⟩

/-- A dataset whose first canonical-combination record has mean 0 while
a later one has a positive mean. -/
def dupDataset : BenchmarkDataset :=
  ⟨⟨"1.0.0", 0⟩, [hitRecord 0, hitRecord 500]⟩

/-- Two datasets sharing one timestamp (a zero time range). -/
def flatPair : List BenchmarkDataset :=
  [hitDataset "1.0.0" 1000 500, hitDataset "1.1.0" 1000 800]

/-- Two datasets with distinct timestamps in decreasing order. -/
def unsortedPair : List BenchmarkDataset :=
  [hitDataset "1.1.0" 100 500, hitDataset "1.0.0" 0 800]

/-- Two datasets with distinct timestamps in increasing order. -/
def sortedPair : List BenchmarkDataset :=
  [hitDataset "1.0.0" 0 500, hitDataset "1.1.0" 100 800]

/-! ## Lemmas about the section-replacement machinery -/

theorem isPrefixOf_length_le :
    ∀ p s : List Char, p.isPrefixOf s = true → p.length ≤ s.length := by
  intro p
  induction p with
  | nil => intro s _; exact Nat.zero_le _
  | cons a p ih =>
    intro s h
    cases s with
    | nil => simp [List.isPrefixOf] at h
    | cons b t =>
      simp only [List.isPrefixOf, Bool.and_eq_true] at h
      simpa using ih t h.2

theorem headingAt_nil : headingAt [] = none := by decide

theorem headingAt_bounds {s : List Char} {h : Nat} (hm : headingAt s = some h) :
    1 ≤ h ∧ h ≤ s.length := by
  unfold headingAt at hm
  by_cases h1 : perfHeading1.isPrefixOf s
  · rw [if_pos h1] at hm
    have hl := isPrefixOf_length_le _ _ h1
    have he : perfHeading1.length = h := by simpa using hm
    have hv : perfHeading1.length = 16 := by decide
    omega
  · rw [if_neg h1] at hm
    by_cases h2 : perfHeading2.isPrefixOf s
    · rw [if_pos h2] at hm
      have hl := isPrefixOf_length_le _ _ h2
      have he : perfHeading2.length = h := by simpa using hm
      have hv : perfHeading2.length = 14 := by decide
      omega
    · rw [if_neg h2] at hm
      exact absurd hm (by simp)

theorem reSubAllAux_nil (repl : List Char) (fuel : Nat) :
    reSubAllAux repl fuel [] = [] := by
  cases fuel <;> rfl

theorem reSubAllAux_succ_some (repl : List Char) (fuel : Nat) {c : Char}
    {t : List Char} {h : Nat} (hm : headingAt (c :: t) = some h) :
    reSubAllAux repl (fuel + 1) (c :: t) =
      repl ++ reSubAllAux repl fuel ((c :: t).drop (h + lazyLen ((c :: t).drop h))) := by
  simp only [reSubAllAux, hm]

theorem reSubAllAux_succ_none (repl : List Char) (fuel : Nat) {c : Char}
    {t : List Char} (hm : headingAt (c :: t) = none) :
    reSubAllAux repl (fuel + 1) (c :: t) = c :: reSubAllAux repl fuel t := by
  simp only [reSubAllAux, hm]

theorem reSubAllAux_fuel (repl : List Char) :
    ∀ fuel s, s.length ≤ fuel → reSubAllAux repl fuel s = reSubAll repl s := by
  intro fuel
  induction fuel using Nat.strong_induction_on with
  | _ fuel ih =>
    intro s hs
    cases s with
    | nil => rw [reSubAllAux_nil, reSubAll, List.length_nil, reSubAllAux_nil]
    | cons c t =>
      cases fuel with
      | zero => simp at hs
      | succ k =>
        have ht : t.length ≤ k := by simpa using hs
        rw [reSubAll, List.length_cons]
        cases hm : headingAt (c :: t) with
        | some h =>
          rw [reSubAllAux_succ_some repl k hm, reSubAllAux_succ_some repl t.length hm]
          have h1 : 1 ≤ h := (headingAt_bounds hm).1
          have hdrop : ((c :: t).drop (h + lazyLen ((c :: t).drop h))).length ≤ t.length := by
            rw [List.length_drop, List.length_cons]
            omega
          rw [ih k (by omega) _ (le_trans hdrop ht), ih t.length (by omega) _ hdrop]
        | none =>
          rw [reSubAllAux_succ_none repl k hm, reSubAllAux_succ_none repl t.length hm,
            ih k (by omega) t ht, ih t.length (by omega) t (le_refl _)]

theorem reSubAll_nil (repl : List Char) : reSubAll repl [] = [] := rfl

theorem reSubAll_cons_none (repl : List Char) {c : Char} {t : List Char}
    (hm : headingAt (c :: t) = none) :
    reSubAll repl (c :: t) = c :: reSubAll repl t := by
  rw [reSubAll, List.length_cons, reSubAllAux_succ_none repl t.length hm,
    reSubAllAux_fuel repl t.length t (le_refl _)]

theorem reSubAll_of_headingAt (repl : List Char) {s : List Char} {h : Nat}
    (hm : headingAt s = some h) :
    reSubAll repl s = repl ++ reSubAll repl (s.drop (h + lazyLen (s.drop h))) := by
  cases s with
  | nil => rw [headingAt_nil] at hm; exact absurd hm (by simp)
  | cons c t =>
    rw [reSubAll, List.length_cons, reSubAllAux_succ_some repl t.length hm]
    have hdrop : ((c :: t).drop (h + lazyLen ((c :: t).drop h))).length ≤ t.length := by
      have h1 : 1 ≤ h := (headingAt_bounds hm).1
      rw [List.length_drop, List.length_cons]
      omega
    rw [reSubAllAux_fuel repl t.length _ hdrop]

theorem reSubAll_of_noMatchAll (repl : List Char) :
    ∀ s, noMatchAll s = true → reSubAll repl s = s := by
  intro s
  induction s with
  | nil => intro _; rfl
  | cons c t ih =>
    intro hs
    simp only [noMatchAll, Bool.and_eq_true, Option.isNone_iff_eq_none] at hs
    rw [reSubAll_cons_none repl hs.1, ih hs.2]

theorem reSubAll_append_of_noMatchPre (repl : List Char) :
    ∀ A rest, noMatchPre A rest = true →
      reSubAll repl (A ++ rest) = A ++ reSubAll repl rest := by
  intro A
  induction A with
  | nil => intro rest _; rfl
  | cons c t ih =>
    intro rest hs
    simp only [noMatchPre, Bool.and_eq_true, Option.isNone_iff_eq_none,
      List.append_eq] at hs
    have h1 : headingAt (c :: (t ++ rest)) = none := hs.1
    rw [List.cons_append, reSubAll_cons_none repl h1, ih rest hs.2, List.cons_append]

theorem containsHeadingB_append {r : List Char} {h : Nat}
    (hm : headingAt r = some h) :
    ∀ A, containsHeadingB (A ++ r) = true := by
  intro A
  induction A with
  | nil =>
    cases r with
    | nil => rw [headingAt_nil] at hm; exact absurd hm (by simp)
    | cons c t => simp [containsHeadingB, hm]
  | cons a A ih => simp [containsHeadingB, ih]

/-- C1 (amended): `update_readme_performance` replaces every occurrence
of the section pattern (its `re.sub` passes no count); on a document
with exactly one occurrence — prefix `A` with no match, heading `H`,
lazy body `B` ending at the lookahead, and remainder `C` with no further
match — exactly the span `H ++ B` is replaced and every character of `A`
and `C` is unchanged. -/
theorem c1_single_section_frame (A H B C repl : List Char)
    (hA : noMatchPre A (H ++ (B ++ C)) = true)
    (hH : headingAt (H ++ (B ++ C)) = some H.length)
    (hB : lazyLen (B ++ C) = B.length)
    (hC : noMatchAll C = true) :
    update_readme_content (A ++ (H ++ (B ++ C))) repl = some (A ++ (repl ++ C)) := by
  have hcontains : containsHeadingB (A ++ (H ++ (B ++ C))) = true :=
    containsHeadingB_append hH A
  rw [update_readme_content, if_pos hcontains,
    reSubAll_append_of_noMatchPre repl A _ hA,
    reSubAll_of_headingAt repl hH, List.drop_left, hB]
  have hd : (H ++ (B ++ C)).drop (H.length + B.length) = C := by
    rw [← List.append_assoc, ← List.length_append, List.drop_left]
  rw [hd, reSubAll_of_noMatchAll repl C hC]

/-- Witness for C1's theorem at a concrete single-section document. -/
theorem c1_single_section_frame_witness :
    update_readme_content
        ("Intro text.\n".toList ++ ("## Performance".toList ++
          ("\nOld content 123".toList ++ "\n## License\nMIT.".toList)))
        "NEW SECTION".toList
      = some ("Intro text.\n".toList ++
          ("NEW SECTION".toList ++ "\n## License\nMIT.".toList)) :=
  c1_single_section_frame _ _ _ _ _ (by decide) (by decide) (by decide) (by decide)

/-- C1 (counterexample): on a document with two performance sections the
code replaces both (its `re.sub` has no count argument), so the result
differs from replacing only the first span: the second section — text
outside the first span — is rewritten as well. -/
theorem c1_counterexample :
    update_readme_content "## Performance\nA\n## Other\nx\n## Performance\nB".toList
        "R".toList
      = some "R\n## Other\nx\nR".toList ∧
    "R\n## Other\nx\nR".toList ≠ "R\n## Other\nx\n## Performance\nB".toList := by
  constructor
  · decide
  · decide

/-- C5 (code bug): on a README with no performance section and none of
the four fallback anchors the loop reaches the `r'\Z'` pattern, whose
replacement references the nonexistent group 1; `re.sub` raises
`re.error: invalid group reference` (embedded: `none`), so the section
is not appended at the end and no success is returned — the
`if not inserted` append branch is unreachable. -/
theorem c5_append_crash :
    update_readme_content "# MethodCache\n\nA caching library.\n".toList
      "## ⚡ Performance\nbody".toList = none := by
  decide

/-! ## Lemmas about file sorting and loading -/

theorem insertFileDesc_ne_nil (x : FileEntry) (l : List FileEntry) :
    insertFileDesc x l ≠ [] := by
  cases l with
  | nil => simp [insertFileDesc]
  | cons y t =>
    unfold insertFileDesc
    split <;> simp

theorem sortFilesDesc_eq_nil_iff (l : List FileEntry) :
    sortFilesDesc l = [] ↔ l = [] := by
  cases l with
  | nil => simp [sortFilesDesc]
  | cons x t =>
    simp only [sortFilesDesc]
    exact ⟨fun h => absurd h (insertFileDesc_ne_nil x _), fun h => by simp at h⟩

theorem mem_insertFileDesc (a x : FileEntry) :
    ∀ l : List FileEntry, a ∈ insertFileDesc x l ↔ a = x ∨ a ∈ l := by
  intro l
  induction l with
  | nil => simp [insertFileDesc]
  | cons y t ih =>
    unfold insertFileDesc
    split
    · simp [or_comm, or_assoc]
    · simp only [List.mem_cons, ih]
      tauto

theorem mem_sortFilesDesc (a : FileEntry) :
    ∀ l : List FileEntry, a ∈ sortFilesDesc l ↔ a ∈ l := by
  intro l
  induction l with
  | nil => simp [sortFilesDesc]
  | cons x t ih => simp [sortFilesDesc, mem_insertFileDesc, ih]

/-- C2 (amended): the chart loader skips malformed files and continues —
its result is empty exactly when every selected file fails to parse, and
a dataset is loaded exactly when some selected input file parses to it —
while the README loader opens only the first file of the descending sort
and yields data exactly when that single file parses. -/
theorem c2_loader_behavior (files : List FileEntry) (limit : Int) :
    (load_performance_data files limit = [] ↔
      ∀ f ∈ selectFiles files limit, f.2 = none)
    ∧ (∀ d : BenchmarkDataset,
        d ∈ load_performance_data files limit ↔
          ∃ n, (n, some d) ∈ selectFiles files limit)
    ∧ (∀ f ∈ selectFiles files limit, f ∈ files)
    ∧ ((load_latest_performance_data files).isSome ↔
        ∃ n d t, sortFilesDesc files = (n, some d) :: t) := by
  refine ⟨?_, ?_, ?_, ?_⟩
  · rw [load_performance_data, List.reverse_eq_nil_iff, List.filterMap_eq_nil_iff]
  · intro d
    rw [load_performance_data, List.mem_reverse, List.mem_filterMap]
    constructor
    · rintro ⟨⟨n, o⟩, hmem, ho⟩
      have ho2 : o = some d := ho
      exact ⟨n, ho2 ▸ hmem⟩
    · rintro ⟨n, hmem⟩
      exact ⟨(n, some d), hmem, rfl⟩
  · intro f hf
    have hs : f ∈ sortFilesDesc files := by
      unfold selectFiles at hf
      split at hf
      · exact List.take_subset _ _ hf
      · exact hf
    exact (mem_sortFilesDesc f files).mp hs
  · rw [load_latest_performance_data]
    cases hs : sortFilesDesc files with
    | nil => simp
    | cons f t =>
      constructor
      · intro hf
        obtain ⟨d, hd⟩ := Option.isSome_iff_exists.mp hf
        exact ⟨f.1, d, t, by rw [← hd]⟩
      · rintro ⟨n, d, t', ht⟩
        obtain ⟨h1, h2⟩ := List.cons.inj ht
        rw [h1]
        rfl

/-- Witness for C2's theorem at a concrete file listing. -/
theorem c2_loader_behavior_witness :
    (load_performance_data mixedFiles 50 = [] ↔
      ∀ f ∈ selectFiles mixedFiles 50, f.2 = none)
    ∧ (∀ d : BenchmarkDataset,
        d ∈ load_performance_data mixedFiles 50 ↔
          ∃ n, (n, some d) ∈ selectFiles mixedFiles 50)
    ∧ (∀ f ∈ selectFiles mixedFiles 50, f ∈ mixedFiles)
    ∧ ((load_latest_performance_data mixedFiles).isSome ↔
        ∃ n d t, sortFilesDesc mixedFiles = (n, some d) :: t) :=
  c2_loader_behavior mixedFiles 50

/-- C2 (counterexample): with two files present, the README loader
returns no data because the lexicographically-latest file is malformed,
even though the other file parses (the chart loader recovers it), so a
malformed file does abort that load with more files remaining. -/
theorem c2_counterexample :
    load_latest_performance_data mixedFiles = none ∧
      load_performance_data mixedFiles 50 = [emptyDataset] ∧ mixedFiles ≠ [] := by
  refine ⟨by decide, by decide, by decide⟩

/-- C3 (amended): update-readme's entry point exits 0 exactly when data
loads and either the run is dry or the README is read, spliced without
the `re.error` crash, and written successfully (1 in every other case);
generate-charts' entry point exits 0 both on success and when no usable
data is found — its bare `return` makes `exit(main())` into
`exit(None)`, status 0 — and exits 1 only when data is present and a
write fails. -/
theorem c3_exit_codes (files : List FileEntry) (limit : Int) (dryRun : Bool)
    (content : Option (List Char)) (sect : List Char) (writeOk : Bool) :
    (generate_charts_main files limit writeOk = 0 ↔
      (load_performance_data files limit = [] ∨ writeOk = true))
    ∧ (generate_charts_main files limit writeOk = 1 ↔
      (load_performance_data files limit ≠ [] ∧ writeOk = false))
    ∧ (update_readme_main files dryRun content sect writeOk = 0 ↔
      ((load_latest_performance_data files).isSome ∧
        (dryRun = true ∨ ∃ c, content = some c ∧
          (update_readme_content c sect).isSome ∧ writeOk = true))) := by
  refine ⟨?_, ?_, ?_⟩
  · unfold generate_charts_main
    cases hl : load_performance_data files limit with
    | nil => simp
    | cons a l => cases writeOk <;> simp
  · unfold generate_charts_main
    cases hl : load_performance_data files limit with
    | nil => simp
    | cons a l => cases writeOk <;> simp
  · unfold update_readme_main
    cases hd : load_latest_performance_data files with
    | none => simp [hd]
    | some d =>
      simp only [Option.isSome_some, true_and]
      cases dryRun with
      | true => simp
      | false =>
        simp only [Bool.false_eq_true, if_false, Option.isSome_some, true_and,
          false_or]
        unfold update_readme_performance
        cases content with
        | none => simp
        | some c =>
          cases hu : update_readme_content c sect with
          | none => simp [hu]
          | some nc =>
            cases writeOk with
            | true => simp [hu]
            | false => simp [hu]

/-- Witness for C3's theorem at concrete arguments. -/
theorem c3_exit_codes_witness :
    (generate_charts_main mixedFiles 50 true = 0 ↔
      (load_performance_data mixedFiles 50 = [] ∨ true = true))
    ∧ (generate_charts_main mixedFiles 50 true = 1 ↔
      (load_performance_data mixedFiles 50 ≠ [] ∧ true = false))
    ∧ (update_readme_main mixedFiles false none [] true = 0 ↔
      ((load_latest_performance_data mixedFiles).isSome ∧
        (false = true ∨ ∃ c, (none : Option (List Char)) = some c ∧
          (update_readme_content c []).isSome ∧ true = true))) :=
  c3_exit_codes mixedFiles 50 false none [] true

/-- C3 (counterexample): with zero input files generate-charts' entry
point terminates with exit code 0, not the exit code 1 the claim
requires for the no-usable-data case. -/
theorem c3_counterexample :
    generate_charts_main [] 50 true = 0 ∧ generate_charts_main [] 50 true ≠ 1 := by
  refine ⟨by decide, by decide⟩

/-! ## Speedup, badges, first-match extraction -/

theorem last_param_match_mem {data : BenchmarkDataset} {method : String} {q : ℚ}
    (h : last_param_match data method = some q) :
    ∃ b ∈ data.benchmarks, b.mean = q := by
  have aux : ∀ (l : List BenchmarkRecord) (acc : Option ℚ),
      l.foldl (fun acc b =>
        if paramMatches b && b.method == method then some b.mean else acc) acc = some q →
      acc = some q ∨ ∃ b ∈ l, b.mean = q := by
    intro l
    induction l with
    | nil => intro acc h; exact Or.inl h
    | cons b t ih =>
      intro acc h
      rcases ih _ h with hstep | ⟨b', hb', hq⟩
      · have hstep2 :
            (if (paramMatches b && b.method == method) = true
              then some b.mean else acc) = some q := hstep
        by_cases hc : (paramMatches b && b.method == method) = true
        · rw [if_pos hc] at hstep2
          exact Or.inr ⟨b, by simp, Option.some.inj hstep2⟩
        · rw [if_neg hc] at hstep2
          exact Or.inl hstep2
      · exact Or.inr ⟨b', by simp [hb'], hq⟩
  rcases aux data.benchmarks none h with hacc | hex
  · exact absurd hacc (by simp)
  · exact hex

/-- C6: the speedup line is generated exactly when both a cache-hit and
a no-caching record match the canonical combination and both selected
means are positive (for datasets honouring the data model's non-negative
means, on which Python's falsiness test for `0.0` coincides with
positivity). -/
theorem c6_speedup_iff (data : BenchmarkDataset)
    (hnn : ∀ b ∈ data.benchmarks, 0 ≤ b.mean) :
    (cache_speedup data).isSome ↔
      ((∃ ch, last_param_match data "CacheHit" = some ch ∧ 0 < ch) ∧
       (∃ nc, last_param_match data "NoCaching" = some nc ∧ 0 < nc)) := by
  cases hch : last_param_match data "CacheHit" with
  | none =>
    rw [cache_speedup, hch]
    simp
  | some ch =>
    cases hnc : last_param_match data "NoCaching" with
    | none =>
      rw [cache_speedup, hch, hnc]
      simp
    | some nc =>
      obtain ⟨bc, hbc, hbcq⟩ := last_param_match_mem hch
      obtain ⟨bn, hbn, hbnq⟩ := last_param_match_mem hnc
      have hch0 : 0 ≤ ch := hbcq ▸ hnn bc hbc
      have hnc0 : 0 ≤ nc := hbnq ▸ hnn bn hbn
      rw [cache_speedup, hch, hnc]
      show (if ch ≠ 0 ∧ nc ≠ 0 ∧ 0 < ch then some (nc / ch) else none).isSome = true ↔
        ((∃ ch', some ch = some ch' ∧ 0 < ch') ∧ (∃ nc', some nc = some nc' ∧ 0 < nc'))
      split
      · rename_i hcond
        exact iff_of_true rfl ⟨⟨ch, rfl, hcond.2.2⟩,
          ⟨nc, rfl, lt_of_le_of_ne hnc0 (Ne.symm hcond.2.1)⟩⟩
      · rename_i hcond
        refine iff_of_false (by simp) ?_
        rintro ⟨⟨ch', hch', hchpos⟩, ⟨nc', hnc', hncpos⟩⟩
        obtain rfl : ch = ch' := Option.some.inj hch'
        obtain rfl : nc = nc' := Option.some.inj hnc'
        exact hcond ⟨ne_of_gt hchpos, ne_of_gt hncpos, hchpos⟩

/-- Witness for C6 on a dataset with means 100 (cache hit) and 1000
(no caching). -/
theorem c6_speedup_iff_witness : (cache_speedup speedupDataset).isSome := by
  refine (c6_speedup_iff speedupDataset ?_).mpr ⟨⟨100, rfl, by norm_num⟩, ⟨1000, rfl, by norm_num⟩⟩
  intro b hb
  simp only [speedupDataset, hitRecord, List.mem_cons, List.not_mem_nil, or_false] at hb
  rcases hb with h | h <;> subst h <;> norm_num

/-- C7: each badge colour is a pure function of the mean honouring the
fixed thresholds exactly at their boundaries — fast path: below 1000 ns
`brightgreen`, from 1000 ns below 10000 ns `green`, from 10000 ns
`yellow`; slow path: below 1 ms `green`, from 1 ms below 10 ms `yellow`,
from 10 ms `orange`. -/
theorem c7_badge_thresholds (mean : ℚ) (hnn : 0 ≤ mean) :
    (cache_hit_badge_color mean = "brightgreen" ↔ mean < 1000)
    ∧ (cache_hit_badge_color mean = "green" ↔ 1000 ≤ mean ∧ mean < 10000)
    ∧ (cache_hit_badge_color mean = "yellow" ↔ 10000 ≤ mean)
    ∧ (cache_miss_badge_color mean = "green" ↔ mean < 1000000)
    ∧ (cache_miss_badge_color mean = "yellow" ↔ 1000000 ≤ mean ∧ mean < 10000000)
    ∧ (cache_miss_badge_color mean = "orange" ↔ 10000000 ≤ mean) := by
  unfold cache_hit_badge_color cache_miss_badge_color
  split_ifs with h1 h2 h3 h4 <;>
    refine ⟨?_, ?_, ?_, ?_, ?_, ?_⟩ <;>
    first
      | exact iff_of_true rfl (by linarith)
      | exact iff_of_true rfl (by constructor <;> linarith)
      | exact iff_of_false (by decide) (by intro hp; linarith)

/-- Witness for C7 at the boundary mean 1000 ns. -/
theorem c7_badge_thresholds_witness : cache_hit_badge_color 1000 = "green" :=
  (c7_badge_thresholds 1000 (by norm_num)).2.1.mpr ⟨by norm_num, by norm_num⟩

theorem entry_points_eq_some {method : String} {e : BenchmarkDataset}
    {b : BenchmarkRecord} (hf : e.benchmarks.find? (record_matches method) = some b) :
    entry_points method e =
      if 0 < b.mean then [⟨e.metadata.timestamp, b.mean, e.metadata.version⟩]
      else [] := by
  unfold entry_points
  rw [hf]

theorem entry_points_eq_none {method : String} {e : BenchmarkDataset}
    (hf : e.benchmarks.find? (record_matches method) = none) :
    entry_points method e = [] := by
  unfold entry_points
  rw [hf]

/-- C10: a dataset contributes at most one chart point, taken from its
first record matching the canonical combination; when that first match
has a non-positive mean the dataset contributes nothing, regardless of
later matching records; and the extraction over a dataset list is the
concatenation of the per-dataset contributions in list order. -/
theorem c10_first_match_only (method : String) (e : BenchmarkDataset)
    (data : List BenchmarkDataset) :
    (entry_points method e).length ≤ 1
    ∧ (∀ b, e.benchmarks.find? (record_matches method) = some b → b.mean ≤ 0 →
        entry_points method e = [])
    ∧ extract_points method (e :: data) =
        entry_points method e ++ extract_points method data := by
  refine ⟨?_, ?_, rfl⟩
  · cases hf : e.benchmarks.find? (record_matches method) with
    | none => rw [entry_points_eq_none hf]; simp
    | some b => rw [entry_points_eq_some hf]; split <;> simp
  · intro b hb hm
    rw [entry_points_eq_some hb, if_neg (not_lt.mpr hm)]

/-- Witness for C10: the first matching record has mean 0, a later one
mean 500, and the dataset contributes no point. -/
theorem c10_first_match_only_witness : entry_points "CacheHit" dupDataset = [] :=
  (c10_first_match_only "CacheHit" dupDataset []).2.1 (hitRecord 0) rfl
    (by norm_num [hitRecord])

/-! ## Lemmas about table cells -/

theorem natChars_ne_nil (n : Nat) : natChars n ≠ [] := by
  unfold natChars natCharsFuel
  split <;> simp

theorem natChars_length_pos (n : Nat) : 0 < (natChars n).length :=
  List.length_pos.mpr (natChars_ne_nil n)

theorem intChars_ne_nil (i : Int) : intChars i ≠ [] := by
  unfold intChars
  split
  · simp
  · exact natChars_ne_nil _

theorem intChars_length_pos (i : Int) : 0 < (intChars i).length :=
  List.length_pos.mpr (intChars_ne_nil i)

theorem fmt1_length (q : ℚ) : 3 ≤ (fmt1 q).length := by
  unfold fmt1
  rw [List.length_append, List.length_cons]
  have h1 := natChars_length_pos ((pyRound (q * 10)) % 10).natAbs
  have h2 := intChars_length_pos ((pyRound (q * 10)) / 10)
  omega

theorem fmt1_append_ne_na (a : ℚ) (s : List Char) (hs : 1 ≤ s.length) :
    fmt1 a ++ s ≠ "N/A".toList := by
  intro h
  have hl := congrArg List.length h
  rw [List.length_append] at hl
  have h2 := fmt1_length a
  have h3 : ("N/A".toList).length = 3 := by decide
  omega

theorem format_table_mean_ne_na (m : ℚ) : format_table_mean m ≠ "N/A".toList := by
  have hna : "N/A".toList = ['N', '/', 'A'] := by decide
  unfold format_table_mean
  rw [hna]
  split
  · intro h
    rw [List.cons.injEq] at h
    exact absurd h.1 (by decide)
  · split <;>
      (intro h; rw [List.cons.injEq] at h; exact absurd h.1 (by decide))

theorem format_summary_mean_ne_na (m : ℚ) :
    format_summary_mean m ≠ "N/A".toList := by
  unfold format_summary_mean
  split
  · exact fmt1_append_ne_na _ _ (by decide)
  · split <;> exact fmt1_append_ne_na _ _ (by decide)

theorem table_cell_eq_some {data : BenchmarkDataset} {method mt : String}
    {b : BenchmarkRecord} (hf : find_cell data method mt = some b) :
    table_cell data method mt =
      if 0 < b.mean then format_table_mean b.mean else "N/A".toList := by
  rw [table_cell, hf]

theorem table_cell_eq_none {data : BenchmarkDataset} {method mt : String}
    (hf : find_cell data method mt = none) :
    table_cell data method mt = "N/A".toList := by
  rw [table_cell, hf]

theorem summary_cell_eq_some {data : BenchmarkDataset} {method mt : String}
    {b : BenchmarkRecord} (hf : find_cell data method mt = some b) :
    summary_cell data method mt =
      if 0 < b.mean then format_summary_mean b.mean else "N/A".toList := by
  rw [summary_cell, hf]

theorem summary_cell_eq_none {data : BenchmarkDataset} {method mt : String}
    (hf : find_cell data method mt = none) :
    summary_cell data method mt = "N/A".toList := by
  rw [summary_cell, hf]

/-- C8: a table cell (in both the README table and the dashboard
summary) is `N/A` exactly when no record matches the
`(method, DataSize = 1, ModelType)` triple or the first matching record
has a non-positive mean; otherwise it is the formatted mean of that
first matching record. -/
theorem c8_table_cell_na_iff (data : BenchmarkDataset) (method mt : String) :
    (table_cell data method mt = "N/A".toList ↔
      (find_cell data method mt = none ∨
        ∃ b, find_cell data method mt = some b ∧ b.mean ≤ 0))
    ∧ (find_cell data method mt = none ↔
        ∀ b ∈ data.benchmarks,
          ¬(b.method = method ∧ b.dataSize = some 1 ∧ b.modelType = some mt))
    ∧ (∀ b, find_cell data method mt = some b → 0 < b.mean →
        table_cell data method mt = format_table_mean b.mean)
    ∧ (summary_cell data method mt = "N/A".toList ↔
      (find_cell data method mt = none ∨
        ∃ b, find_cell data method mt = some b ∧ b.mean ≤ 0))
    ∧ (∀ b, find_cell data method mt = some b → 0 < b.mean →
        summary_cell data method mt = format_summary_mean b.mean) := by
  refine ⟨?_, ?_, ?_, ?_, ?_⟩
  · cases hf : find_cell data method mt with
    | none => rw [table_cell_eq_none hf]; simp
    | some b =>
      rw [table_cell_eq_some hf]
      by_cases hm : 0 < b.mean
      · rw [if_pos hm]
        refine iff_of_false (format_table_mean_ne_na b.mean) ?_
        rintro (h | ⟨b', hb', hble⟩)
        · exact absurd h (by simp)
        · obtain rfl : b = b' := Option.some.inj hb'
          linarith
      · rw [if_neg hm]
        exact iff_of_true rfl (Or.inr ⟨b, rfl, not_lt.mp hm⟩)
  · rw [find_cell, List.find?_eq_none]
    constructor
    · intro hall b hb hprop
      have hmem : b ∈ method_group data method := by
        rw [method_group, List.mem_filter]
        exact ⟨hb, by simp [hprop.1]⟩
      have := hall b hmem
      simp only [Bool.and_eq_true, beq_iff_eq, not_and] at this
      exact absurd hprop.2.2 (this hprop.2.1)
    · intro hnone b hb
      rw [method_group, List.mem_filter] at hb
      simp only [Bool.and_eq_true, beq_iff_eq, not_and]
      intro hd hmt
      exact hnone b hb.1 ⟨by simpa using hb.2, hd, hmt⟩
  · intro b hb hm
    rw [table_cell_eq_some hb, if_pos hm]
  · cases hf : find_cell data method mt with
    | none => rw [summary_cell_eq_none hf]; simp
    | some b =>
      rw [summary_cell_eq_some hf]
      by_cases hm : 0 < b.mean
      · rw [if_pos hm]
        refine iff_of_false (format_summary_mean_ne_na b.mean) ?_
        rintro (h | ⟨b', hb', hble⟩)
        · exact absurd h (by simp)
        · obtain rfl : b = b' := Option.some.inj hb'
          linarith
      · rw [if_neg hm]
        exact iff_of_true rfl (Or.inr ⟨b, rfl, not_lt.mp hm⟩)
  · intro b hb hm
    rw [summary_cell_eq_some hb, if_pos hm]

/-- Witness for C8: a positive cache-hit cell is formatted, a zero-mean
cell and a parameter combination with no matching record are `N/A`. -/
theorem c8_table_cell_na_iff_witness :
    table_cell tableDataset "CacheHit" "Small" = format_table_mean 500 ∧
    table_cell tableDataset "CacheMiss" "Small" = "N/A".toList ∧
    table_cell tableDataset "CacheHit" "Medium" = "N/A".toList := by
  refine ⟨?_, ?_, ?_⟩
  · exact (c8_table_cell_na_iff tableDataset "CacheHit" "Small").2.2.1
      ⟨"CacheHit", some 1, some "Small", 500⟩ rfl (by norm_num)
  · exact (c8_table_cell_na_iff tableDataset "CacheMiss" "Small").1.mpr
      (Or.inr ⟨⟨"CacheMiss", some 1, some "Small", 0⟩, rfl, by norm_num⟩)
  · exact (c8_table_cell_na_iff tableDataset "CacheHit" "Medium").1.mpr (Or.inl rfl)

/-! ## Lemmas about chart extrema and coordinates -/

theorem foldl_min_ts_le_init (l : List ChartPoint) :
    ∀ a : ℚ, List.foldl (fun x q => min x q.timestamp) a l ≤ a := by
  induction l with
  | nil => intro a; simp
  | cons p t ih =>
    intro a
    exact le_trans (ih (min a p.timestamp)) (min_le_left _ _)

theorem foldl_min_ts_le_mem (l : List ChartPoint) :
    ∀ (a : ℚ) (q : ChartPoint), q ∈ l →
      List.foldl (fun x r => min x r.timestamp) a l ≤ q.timestamp := by
  induction l with
  | nil => intro a q hq; simp at hq
  | cons p t ih =>
    intro a q hq
    rcases List.mem_cons.mp hq with h | h
    · subst h
      exact le_trans (foldl_min_ts_le_init t _) (min_le_right _ _)
    · exact ih _ q h

theorem foldl_max_ts_ge_init (l : List ChartPoint) :
    ∀ a : ℚ, a ≤ List.foldl (fun x q => max x q.timestamp) a l := by
  induction l with
  | nil => intro a; simp
  | cons p t ih =>
    intro a
    exact le_trans (le_max_left _ _) (ih (max a p.timestamp))

theorem foldl_max_ts_ge_mem (l : List ChartPoint) :
    ∀ (a : ℚ) (q : ChartPoint), q ∈ l →
      q.timestamp ≤ List.foldl (fun x r => max x r.timestamp) a l := by
  induction l with
  | nil => intro a q hq; simp at hq
  | cons p t ih =>
    intro a q hq
    rcases List.mem_cons.mp hq with h | h
    · subst h
      exact le_trans (le_max_right _ _) (foldl_max_ts_ge_init t _)
    · exact ih _ q h

theorem minTime_le_mem {pts : List ChartPoint} {q : ChartPoint} (hq : q ∈ pts) :
    minTime pts ≤ q.timestamp := by
  cases pts with
  | nil => simp at hq
  | cons p t =>
    rcases List.mem_cons.mp hq with h | h
    · subst h
      exact foldl_min_ts_le_init t _
    · exact foldl_min_ts_le_mem t _ q h

theorem maxTime_ge_mem {pts : List ChartPoint} {q : ChartPoint} (hq : q ∈ pts) :
    q.timestamp ≤ maxTime pts := by
  cases pts with
  | nil => simp at hq
  | cons p t =>
    rcases List.mem_cons.mp hq with h | h
    · subst h
      exact foldl_max_ts_ge_init t _
    · exact foldl_max_ts_ge_mem t _ q h

theorem foldl_min_ts_const (t0 : ℚ) :
    ∀ l : List ChartPoint, (∀ q ∈ l, q.timestamp = t0) →
      List.foldl (fun x r => min x r.timestamp) t0 l = t0 := by
  intro l
  induction l with
  | nil => intro _; rfl
  | cons p t ih =>
    intro hall
    have hp : p.timestamp = t0 := hall p (by simp)
    show List.foldl (fun x r => min x r.timestamp) (min t0 p.timestamp) t = t0
    rw [hp, min_self]
    exact ih (fun q hq => hall q (by simp [hq]))

theorem foldl_max_ts_const (t0 : ℚ) :
    ∀ l : List ChartPoint, (∀ q ∈ l, q.timestamp = t0) →
      List.foldl (fun x r => max x r.timestamp) t0 l = t0 := by
  intro l
  induction l with
  | nil => intro _; rfl
  | cons p t ih =>
    intro hall
    have hp : p.timestamp = t0 := hall p (by simp)
    show List.foldl (fun x r => max x r.timestamp) (max t0 p.timestamp) t = t0
    rw [hp, max_self]
    exact ih (fun q hq => hall q (by simp [hq]))

theorem minTime_const {pts : List ChartPoint} {t0 : ℚ}
    (h : ∀ q ∈ pts, q.timestamp = t0) (hne : pts ≠ []) : minTime pts = t0 := by
  cases pts with
  | nil => exact absurd rfl hne
  | cons p t =>
    show List.foldl (fun x r => min x r.timestamp) p.timestamp t = t0
    rw [h p (by simp)]
    exact foldl_min_ts_const t0 t (fun q hq => h q (by simp [hq]))

theorem maxTime_const {pts : List ChartPoint} {t0 : ℚ}
    (h : ∀ q ∈ pts, q.timestamp = t0) (hne : pts ≠ []) : maxTime pts = t0 := by
  cases pts with
  | nil => exact absurd rfl hne
  | cons p t =>
    show List.foldl (fun x r => max x r.timestamp) p.timestamp t = t0
    rw [h p (by simp)]
    exact foldl_max_ts_const t0 t (fun q hq => h q (by simp [hq]))

theorem create_svg_chart_eq (data : List BenchmarkDataset) (method : String)
    (width height : ℚ) :
    create_svg_chart data method width height =
      if (extract_points method data).length < 2 then none
      else some (svg_coords (extract_points method data) width height) := rfl

theorem svg_coords_eq (pts : List ChartPoint) (width height : ℚ) :
    svg_coords pts width height = pts.map (fun p =>
      (60 + (width - 2 * 60) *
        (if 0 < maxTime pts - minTime pts
          then (p.timestamp - minTime pts) / (maxTime pts - minTime pts) else 0),
       60 + (height - 2 * 60) *
        (if 0 < meanRangeOf pts
          then (maxMean pts - p.mean) / meanRangeOf pts else 1 / 2))) := rfl

/-- C4 (amended): when all (at least two) extracted points share one
timestamp, `create_svg_chart` avoids the division — its guard substitutes
progress 0 — but that places every point at the same x-coordinate, the
left margin 60, rather than spacing them evenly; the refactored helper
`_plot_data_points` has no guard and divides by zero on the same input. -/
theorem c4_zero_range_behavior (data : List BenchmarkDataset) (method : String)
    (t0 : ℚ) (h2 : 2 ≤ (extract_points method data).length)
    (ht : ∀ p ∈ extract_points method data, p.timestamp = t0) :
    (∃ vs, create_svg_chart data method 800 400 = some vs ∧ ∀ v ∈ vs, v.1 = 60)
    ∧ plot_data_points (extract_points method data) 800 400 = none := by
  have hne : extract_points method data ≠ [] := by
    intro hnil
    rw [hnil] at h2
    simp at h2
  have hmin : minTime (extract_points method data) = t0 := minTime_const ht hne
  have hmax : maxTime (extract_points method data) = t0 := maxTime_const ht hne
  constructor
  · refine ⟨svg_coords (extract_points method data) 800 400, ?_, ?_⟩
    · rw [create_svg_chart_eq, if_neg (by omega)]
    · intro v hv
      rw [svg_coords_eq] at hv
      obtain ⟨p, hp, hpv⟩ := List.mem_map.mp hv
      rw [← hpv]
      show 60 + (800 - 2 * 60) *
        (if 0 < maxTime (extract_points method data) - minTime (extract_points method data)
          then _ / _ else 0) = 60
      rw [hmin, hmax, sub_self, if_neg (lt_irrefl 0)]
      ring
  · rw [plot_data_points,
      if_neg (by simpa [List.isEmpty_iff] using hne), hmin, hmax,
      if_pos (sub_self t0)]

/-- Witness for C4 on two points sharing timestamp 1000. -/
theorem c4_zero_range_behavior_witness :
    (∃ vs, create_svg_chart flatPair "CacheHit" 800 400 = some vs ∧
      ∀ v ∈ vs, v.1 = 60)
    ∧ plot_data_points (extract_points "CacheHit" flatPair) 800 400 = none := by
  refine c4_zero_range_behavior flatPair "CacheHit" 1000 ?_ ?_
  · rw [show extract_points "CacheHit" flatPair =
      [⟨1000, 500, "1.0.0"⟩, ⟨1000, 800, "1.1.0"⟩] from rfl]
    norm_num
  · rw [show extract_points "CacheHit" flatPair =
      [⟨1000, 500, "1.0.0"⟩, ⟨1000, 800, "1.1.0"⟩] from rfl]
    simp

/-- C4 (counterexample): two valid points share timestamp 1000; the
chart places both at x = 60 — coincident, not evenly spaced — and the
refactored plotting helper divides by zero (`none`), refuting both
halves of the claim as stated. -/
theorem c4_counterexample :
    (∃ vs, create_svg_chart flatPair "CacheHit" 800 400 = some vs ∧
      vs.map Prod.fst = [60, 60])
    ∧ plot_data_points (extract_points "CacheHit" flatPair) 800 400 = none := by
  have hpts : extract_points "CacheHit" flatPair =
      [⟨1000, 500, "1.0.0"⟩, ⟨1000, 800, "1.1.0"⟩] := rfl
  constructor
  · refine ⟨svg_coords (extract_points "CacheHit" flatPair) 800 400, ?_, ?_⟩
    · rw [create_svg_chart_eq, if_neg (by rw [hpts]; norm_num)]
    · rw [svg_coords_eq, hpts, List.map_map]
      simp only [minTime, maxTime, List.foldl, Function.comp]
      norm_num [min_self, max_self]
  · rw [plot_data_points, hpts]
    rw [if_neg (by simp), if_pos (by simp [minTime, maxTime, List.foldl])]

/-- C9 (amended): when the extracted points' timestamps are strictly
increasing in input order (the chronological filename convention the
loader relies on), the chart's polyline has exactly one vertex per point
and strictly increasing x-coordinates; the renderer itself never sorts,
so this input ordering is what the monotonicity rests on. -/
theorem c9_polyline_monotone (data : List BenchmarkDataset) (method : String)
    (h2 : 2 ≤ (extract_points method data).length)
    (hmono : List.Chain' (fun p q : ChartPoint => p.timestamp < q.timestamp)
      (extract_points method data)) :
    ∃ vs, create_svg_chart data method 800 400 = some vs ∧
      vs.length = (extract_points method data).length ∧
      List.Chain' (fun a b : ℚ × ℚ => a.1 < b.1) vs := by
  have hrange : 0 < maxTime (extract_points method data) -
      minTime (extract_points method data) := by
    obtain ⟨p, q, rest, hcons⟩ :
        ∃ p q rest, extract_points method data = p :: q :: rest := by
      cases hl : extract_points method data with
      | nil => rw [hl] at h2; simp at h2
      | cons p t =>
        cases t with
        | nil => rw [hl] at h2; simp at h2
        | cons q rest => exact ⟨p, q, rest, rfl⟩
    have hm2 := hmono
    rw [hcons] at hm2
    have hpq : p.timestamp < q.timestamp := (List.chain'_cons.mp hm2).1
    have hminp : minTime (extract_points method data) ≤ p.timestamp :=
      minTime_le_mem (by rw [hcons]; simp)
    have hmaxq : q.timestamp ≤ maxTime (extract_points method data) :=
      maxTime_ge_mem (by rw [hcons]; simp)
    linarith
  refine ⟨svg_coords (extract_points method data) 800 400, ?_, ?_, ?_⟩
  · rw [create_svg_chart_eq, if_neg (by omega)]
  · rw [svg_coords_eq, List.length_map]
  · rw [svg_coords_eq]
    refine (List.chain'_map _).mpr ?_
    refine List.Chain'.imp ?_ hmono
    intro p q hlt
    show 60 + (800 - 2 * 60) *
        (if 0 < maxTime (extract_points method data) - minTime (extract_points method data)
          then (p.timestamp - minTime (extract_points method data)) /
            (maxTime (extract_points method data) - minTime (extract_points method data))
          else 0) <
      60 + (800 - 2 * 60) *
        (if 0 < maxTime (extract_points method data) - minTime (extract_points method data)
          then (q.timestamp - minTime (extract_points method data)) /
            (maxTime (extract_points method data) - minTime (extract_points method data))
          else 0)
    rw [if_pos hrange, if_pos hrange]
    have hdiv : (p.timestamp - minTime (extract_points method data)) /
          (maxTime (extract_points method data) - minTime (extract_points method data)) <
        (q.timestamp - minTime (extract_points method data)) /
          (maxTime (extract_points method data) - minTime (extract_points method data)) :=
      (div_lt_div_iff_of_pos_right hrange).mpr (by linarith)
    have h680 : (0 : ℚ) < 800 - 2 * 60 := by norm_num
    have := mul_lt_mul_of_pos_left hdiv h680
    linarith

/-- Witness for C9 on two chronologically ordered datasets. -/
theorem c9_polyline_monotone_witness :
    ∃ vs, create_svg_chart sortedPair "CacheHit" 800 400 = some vs ∧
      vs.length = (extract_points "CacheHit" sortedPair).length ∧
      List.Chain' (fun a b : ℚ × ℚ => a.1 < b.1) vs := by
  refine c9_polyline_monotone sortedPair "CacheHit" ?_ ?_
  · rw [show extract_points "CacheHit" sortedPair =
      [⟨0, 500, "1.0.0"⟩, ⟨100, 800, "1.1.0"⟩] from rfl]
    norm_num
  · rw [show extract_points "CacheHit" sortedPair =
      [⟨0, 500, "1.0.0"⟩, ⟨100, 800, "1.1.0"⟩] from rfl]
    refine List.chain'_cons.mpr ⟨by norm_num, by simp⟩

/-- C9 (counterexample): two valid points with distinct timestamps fed
in reverse chronological order yield x-coordinates 740 then 60 — the
code connects points in input order without sorting, so the polyline's
x-coordinates are not monotonically increasing as the claim states. -/
theorem c9_counterexample :
    (∃ vs, create_svg_chart unsortedPair "CacheHit" 800 400 = some vs ∧
      vs.map Prod.fst = [740, 60])
    ∧ ¬ ((740 : ℚ) ≤ 60) := by
  have hpts : extract_points "CacheHit" unsortedPair =
      [⟨100, 500, "1.1.0"⟩, ⟨0, 800, "1.0.0"⟩] := rfl
  constructor
  · refine ⟨svg_coords (extract_points "CacheHit" unsortedPair) 800 400, ?_, ?_⟩
    · rw [create_svg_chart_eq, if_neg (by rw [hpts]; norm_num)]
    · rw [svg_coords_eq, hpts, List.map_map]
      simp only [minTime, maxTime, List.foldl, Function.comp]
      norm_num [min_def, max_def]
  · norm_num
